import Mathlib

/-!
Verification of the dbx-container build-dependency orchestration engine.

The definitions below are a shallow embedding of the Python sources:
  src/dbx_container/utils/stringbuilder.py   (StringBuilder)
  src/dbx_container/docker/builder.py        (DockerfileBuilder)
  src/dbx_container/docker/instructions.py   (the instruction vocabulary)
  src/dbx_container/engine.py                (RuntimeContainerEngine)
  src/dbx_container/cli.py                   (generate-matrix command)
  src/dbx_container/models/runtime.py        (Runtime, SystemEnvironment)

Python string primitives are modelled over `List Char`:
`str.replace` replaces every occurrence left to right, `str.split()`
splits on whitespace runs dropping empty pieces, `str.split(sep)` keeps
empty pieces, `int(...)` accepts an optional sign followed by decimal
digits (the model ignores surrounding whitespace and underscores, which
never occur in the tokens the engine parses), and `f-string` interpolation
is string concatenation.  Calendar dates are modelled as natural numbers
(day counts); the sources only compare them.  File-system writes are
modelled by the pure path and content computations the engine performs.
-/

namespace DbxContainer

/-- Python `sub in s` on character lists: `sub` occurs somewhere in `s`. -/
def hasSubL (sub : List Char) : List Char → Bool
  | [] => sub.isEmpty
  | c :: cs => sub.isPrefixOf (c :: cs) || hasSubL sub cs

/-- Python `sub in s` for strings. -/
def pyContains (s sub : String) : Bool := hasSubL sub.data s.data

/-- One step of Python `str.replace`: fuel-indexed so that it is structural
and kernel-reduces.  The fuel is the length of the scanned list. -/
def replaceGo (pat rep : List Char) : Nat → List Char → List Char
  | _, [] => []
  | 0, s => s
  | fuel + 1, c :: cs =>
    if pat.isPrefixOf (c :: cs) then
      rep ++ replaceGo pat rep fuel (List.drop (pat.length - 1) cs)
    else
      c :: replaceGo pat rep fuel cs

/-- Python `s.replace(pat, rep)`: every occurrence, scanning left to right.
The engine never calls it with an empty pattern. -/
def pyReplace (s pat rep : String) : String :=
  if pat.data = [] then s else ⟨replaceGo pat.data rep.data s.data.length s.data⟩

/-- Python `s.lower()` (the engine only lowers ASCII text). -/
def pyLower (s : String) : String := ⟨s.data.map Char.toLower⟩

/-- Python `s.split()` worker: whitespace runs separate tokens, empty
tokens are dropped; `cur` is the current token, reversed. -/
def splitWsGo (cur : List Char) : List Char → List (List Char)
  | [] => if cur.isEmpty then [] else [cur.reverse]
  | c :: cs =>
    if c.isWhitespace then
      if cur.isEmpty then splitWsGo [] cs
      else cur.reverse :: splitWsGo [] cs
    else
      splitWsGo (c :: cur) cs

/-- Python `s.split()` (no separator argument). -/
def pySplitWs (s : String) : List String := (splitWsGo [] s.data).map (fun l => ⟨l⟩)

/-- Python `s.split(sep)` for a one-character separator; keeps empty pieces. -/
def splitOnCharL (sep : Char) : List Char → List (List Char)
  | [] => [[]]
  | c :: cs =>
    match splitOnCharL sep cs with
    | h :: t => if c = sep then [] :: h :: t else (c :: h) :: t
    | [] => [[c]]

/-- Python `s.split(sep)` on strings, for a one-character separator. -/
def pySplitOnChar (sep : Char) (s : String) : List String :=
  (splitOnCharL sep s.data).map (fun l => ⟨l⟩)

/-- Decimal value of a digit list. -/
def natOfDigits (ds : List Char) : Nat :=
  ds.foldl (fun n c => 10 * n + (c.toNat - 48)) 0

/-- Python `int(s)`: optional sign then decimal digits; `none` models a
`ValueError`. -/
def pyInt? (s : String) : Option Int :=
  match s.data with
  | [] => none
  | '-' :: ds =>
    if ds ≠ [] ∧ ds.all Char.isDigit then some (-(natOfDigits ds : Int)) else none
  | '+' :: ds =>
    if ds ≠ [] ∧ ds.all Char.isDigit then some (natOfDigits ds : Int) else none
  | ds =>
    if ds.all Char.isDigit then some (natOfDigits ds : Int) else none

/-- Python `f-string` padding `02d`: two digits minimum, zero padded. -/
def fmt02 (n : Int) : String :=
  if 0 ≤ n ∧ n < 10 then "0" ++ toString n else toString n

/-- Python `s.endswith(suf)`. -/
def pyEndsWith (s suf : String) : Bool := suf.data.isSuffixOf s.data

/-- Concatenation of a list of strings, in order: models both
`"".join(content)` (stringbuilder.py line 64) and the sequence of
`f.write(...)` calls that produce a file. -/
def joinWrites : List String → String
  | [] => ""
  | s :: t => s ++ joinWrites t

/-! ## Instruction model (docker/instructions.py)

Each Python instruction class holds the fields of its constructor and its
`apply` calls `builder.add_instruction(str(self))`; `renderLine` below is
the `__str__` of each class. -/

inductive DockerInstruction where
  | fromInstr (image : String)
  | arg (name : String) (default : Option String)
  | env (name value : String)
  | run (command : String)
  | workdir (path : String)
  | entrypoint (e : String)
  | copy (src dest : String) (chown : Option String)
  | cmd (c : String)
  | comment (c : String)
  | label (key value : String)
  | expose (port : Nat)
  | user (u : String)
  | volume (path : String)
  | healthcheck (command interval timeout : String) (retries : Nat)
  | shellInstr (s : String)
  | add (src dest : String)
  | stopsignal (signal : String)
  | onbuild (instruction : String)
deriving DecidableEq

/-- The single line each instruction renders to (`__str__` of each class). -/
def renderLine : DockerInstruction → String
  | .fromInstr image => "FROM " ++ image
  | .arg name none => "ARG " ++ name
  | .arg name (some default) => "ARG " ++ name ++ "=" ++ default
  | .env name value => "ENV " ++ name ++ "=" ++ value
  | .run command => "RUN " ++ command
  | .workdir path => "WORKDIR " ++ path
  | .entrypoint e => "ENTRYPOINT " ++ e
  | .copy src dest none => "COPY " ++ src ++ " " ++ dest
  | .copy src dest (some chown) => "COPY --chown=" ++ chown ++ " " ++ src ++ " " ++ dest
  | .cmd c => "CMD " ++ c
  | .comment c => "# " ++ c
  | .label key value => "LABEL " ++ key ++ "=" ++ value
  | .expose port => "EXPOSE " ++ toString port
  | .user u => "USER " ++ u
  | .volume path => "VOLUME " ++ path
  | .healthcheck command interval timeout retries =>
      "HEALTHCHECK --interval=" ++ interval ++ " --timeout=" ++ timeout ++
        " --retries=" ++ toString retries ++ " CMD " ++ command
  | .shellInstr s => "SHELL " ++ s
  | .add src dest => "ADD " ++ src ++ " " ++ dest
  | .stopsignal signal => "STOPSIGNAL " ++ signal
  | .onbuild instruction => "ONBUILD " ++ instruction

/-! ## StringBuilder (utils/stringbuilder.py)

The DockerfileBuilder constructs its StringBuilder with the defaults:
LF line ending, four-space indent.  The indent level is carried although
the Dockerfile path never changes it from 0. -/

structure StringBuilder where
  indent_level : Nat := 0
  content : List String := []
deriving DecidableEq

/-- `indent_string * indent_level` with the default four-space indent. -/
def indentOf : Nat → String
  | 0 => ""
  | n + 1 => "    " ++ indentOf n

/-- `StringBuilder.append` (stringbuilder.py lines 29-34). -/
def SBappend (sb : StringBuilder) (value : String) : StringBuilder :=
  if sb.indent_level > 0 then
    { sb with content := sb.content ++ [indentOf sb.indent_level ++ value] }
  else
    { sb with content := sb.content ++ [value] }

/-- `StringBuilder.append_line` (lines 40-42); `eol` is LF. -/
def SBappendLine (sb : StringBuilder) (value : String) : StringBuilder :=
  SBappend sb (value ++ "\n")

/-- `StringBuilder.__str__` (lines 63-64): plain concatenation. -/
def SBrender (sb : StringBuilder) : String := joinWrites sb.content

/-! ## DockerfileBuilder (docker/builder.py) -/

structure DockerfileBuilder where
  builder : StringBuilder
  base_image : DockerInstruction
  registry : String
deriving DecidableEq

/-- `add_instruction` (builder.py lines 43-46) composed with each
instruction's `apply`, which renders its one line: `add`, `__add__`,
`__call__` and the constructor loop all reduce to this. -/
def applyInstr (b : DockerfileBuilder) (i : DockerInstruction) : DockerfileBuilder :=
  { b with builder := SBappendLine b.builder (renderLine i) }

/-- `DockerfileBuilder.__init__` (builder.py lines 21-32): fresh
StringBuilder, apply the base-image instruction, then each listed
instruction in order. -/
def mkDockerfileBuilder (base : DockerInstruction) (instrs : List DockerInstruction)
    (registry : Option String) : DockerfileBuilder :=
  let b0 : DockerfileBuilder :=
    { builder := {}, base_image := base, registry := registry.getD "ghcr.io/twsl" }
  let b1 := applyInstr b0 base
  instrs.foldl applyInstr b1

/-- `DockerfileBuilder.render` (builder.py lines 73-75). -/
def renderBuilder (b : DockerfileBuilder) : String := SBrender b.builder

/-- The spec's whole-artifact contract, written from the spec's words:
`join(step.renderLine() for step in base-plus-steps, newline)`. -/
def specJoin : List String → String
  | [] => ""
  | [l] => l
  | l :: l2 :: ls => l ++ "\n" ++ specJoin (l2 :: ls)

/-! ## Data model (models/environment.py, models/runtime.py) -/

structure SystemEnvironment where
  operating_system : String
  java_version : String
  scala_version : String
  python_version : String
  r_version : String
  delta_lake_version : String
deriving DecidableEq

/-- A library version entry: `str` or a `(version, channel)` tuple. -/
inductive LibVersion where
  | plain (v : String)
  | channel (v c : String)
deriving DecidableEq

/-- `Runtime` (models/runtime.py).  Dates are modelled as day counts; the
sources only compare and print them.  `included_libraries` is an
association list with the insertion order and key uniqueness of a Python
dict. -/
structure Runtime where
  version : String
  release_date : Nat
  end_of_support_date : Nat
  spark_version : String
  url : String
  is_ml : Bool
  is_lts : Bool
  system_environment : SystemEnvironment
  included_libraries : List (String × List (String × LibVersion)) := []
deriving DecidableEq

/-- A variation dict as produced by `get_runtime_variations`
(engine.py lines 285-292): the four keys it always carries. -/
structure Variation where
  os_version : String
  python_version : String
  suffix : String
  separator : String
deriving DecidableEq

/-- The relevant fields of the `PythonDockerfileVersions` dataclass
(images/python.py lines 19-25). -/
structure PythonDockerfileVersions where
  python : String := "3.12"
deriving DecidableEq

/-! ## Version and variation resolution (engine.py) -/

/-- `sanitize_runtime_version` (engine.py lines 225-235). -/
def sanitize_runtime_version (version : String) : String :=
  pyReplace version " " "-"

/-- The per-part scan of `extract_os_version_from_runtime`
(engine.py lines 253-266): the first whitespace token containing a dot and
a digit whose first two dot-separated pieces parse as integers yields
`major.minor` with the minor zero-padded to two digits; parse failures
fall through to the next token. -/
def findUbuntuVersionPart : List String → Option String
  | [] => none
  | part :: rest =>
    if part.data.contains '.' ∧ part.data.any Char.isDigit then
      let version_parts := pySplitOnChar '.' part
      if h : version_parts.length ≥ 2 then
        match pyInt? (version_parts.get ⟨0, by omega⟩),
              pyInt? (version_parts.get ⟨1, by omega⟩) with
        | some major, some minor =>
            some (toString major ++ "." ++ fmt02 minor)
        | _, _ => findUbuntuVersionPart rest
      else findUbuntuVersionPart rest
    else findUbuntuVersionPart rest

/-- `extract_os_version_from_runtime` (engine.py lines 237-269). -/
def extract_os_version_from_runtime (runtime : Runtime) : String :=
  let env := runtime.system_environment
  if env.operating_system = "" then "24.04"
  else
    let os_info := pyLower env.operating_system
    if pyContains os_info "ubuntu" then
      match findUbuntuVersionPart (pySplitWs os_info) with
      | some v => v
      | none => "24.04"
    else "24.04"

/-- `get_python_versions_from_runtime` (engine.py lines 205-223).
`none` models the `IndexError` that `split()[0]` raises when the stored
python version is non-empty whitespace. -/
def get_python_versions_from_runtime (runtime : Runtime) :
    Option PythonDockerfileVersions :=
  let pv := runtime.system_environment.python_version
  match (if pv = "" then some "3.12" else (pySplitWs pv).head?) with
  | none => none
  | some python_version =>
    let python_version :=
      if python_version.data.contains '.' then
        let parts := pySplitOnChar '.' python_version
        if h : parts.length ≥ 2 then
          parts.get ⟨0, by omega⟩ ++ "." ++ parts.get ⟨1, by omega⟩
        else python_version
      else python_version
    some { python := python_version }

/-- `get_runtime_variations` (engine.py lines 271-294). -/
def get_runtime_variations (runtime : Runtime) : Option (List Variation) :=
  let os_version := extract_os_version_from_runtime runtime
  match get_python_versions_from_runtime runtime with
  | none => none
  | some python_versions =>
    some [{ os_version := os_version,
            python_version := python_versions.python,
            suffix := "ubuntu" ++ pyReplace os_version "." ""
                        ++ "-py" ++ pyReplace python_versions.python "." "",
            separator := "-" }]

/-- `save_dockerfile` (engine.py lines 401-436), reduced to the pure path
computation: `data_dir/image_type/runtime_version[sep suffix][-ml]/Dockerfile`. -/
def save_dockerfile_path (data_dir : String) (runtime : Runtime)
    (image_type : String) (variation : Option Variation) : String :=
  let rv := sanitize_runtime_version runtime.version
  let rv := match variation with
    | some v => rv ++ v.separator ++ v.suffix
    | none => rv
  let rv := if runtime.is_ml then rv ++ "-ml" else rv
  data_dir ++ "/" ++ image_type ++ "/" ++ rv ++ "/" ++ "Dockerfile"

/-- A concrete runtime used by witnesses: version `17.3 LTS`, Ubuntu 24.04,
Python 3.12.3. -/
def rt173 : Runtime :=
  { version := "17.3 LTS"
    release_date := 820
    end_of_support_date := 1500
    spark_version := "4.0.0"
    url := "https://docs.databricks.com/release-notes/runtime/17.3lts.html"
    is_ml := false
    is_lts := true
    system_environment :=
      { operating_system := "Ubuntu 24.04.3 LTS"
        java_version := "Zulu 17.0.12"
        scala_version := "2.13.16"
        python_version := "3.12.3"
        r_version := "4.4.2"
        delta_lake_version := "4.0.0" }
    included_libraries := [("python", [("pandas", .plain "2.2.3"),
                                       ("numpy", .channel "1.26.4" "conda")])] }

/-- The canonical variation of `rt173`. -/
def var173 : Variation :=
  { os_version := "24.04", python_version := "3.12"
    suffix := "ubuntu2404-py312", separator := "-" }

/-- The code path of `extract_os_version_from_runtime` that finds a real
Ubuntu version: non-empty OS string that mentions `ubuntu` and has a
parseable dotted version token.  Its negation is the documented fallback. -/
def ubuntuVersionParseable (os : String) : Prop :=
  os ≠ "" ∧ pyContains (pyLower os) "ubuntu" = true
    ∧ (findUbuntuVersionPart (pySplitWs (pyLower os))).isSome = true

instance (os : String) : Decidable (ubuntuVersionParseable os) := by
  unfold ubuntuVersionParseable; infer_instance

/-- A runtime whose OS string has no parseable Ubuntu version. -/
def rtDebian : Runtime :=
  { rt173 with
    version := "9.9"
    system_environment :=
      { rt173.system_environment with operating_system := "Debian GNU/Linux 12" } }

/-! ## Image-type registry and dependency resolution (engine.py lines 63-178) -/

/-- One entry of `self.image_types` (engine.py lines 63-113): the builder
class and description do not influence dependency resolution; the only
kwarg the table carries is `use_gpu_base`. -/
structure ImageTypeConfig where
  use_gpu_base : Bool
  depends_on : Option String
  runtime_specific : Bool
deriving DecidableEq

/-- The fixed registry built in `__init__`, in source order. -/
def image_types : List (String × ImageTypeConfig) :=
  [ ("gpu",          { use_gpu_base := false, depends_on := none,                runtime_specific := false }),
    ("minimal",      { use_gpu_base := false, depends_on := none,                runtime_specific := false }),
    ("minimal-gpu",  { use_gpu_base := true,  depends_on := some "gpu",          runtime_specific := false }),
    ("standard",     { use_gpu_base := false, depends_on := some "minimal",      runtime_specific := false }),
    ("standard-gpu", { use_gpu_base := true,  depends_on := some "minimal-gpu",  runtime_specific := false }),
    ("python",       { use_gpu_base := false, depends_on := some "standard",     runtime_specific := true }),
    ("python-gpu",   { use_gpu_base := true,  depends_on := some "standard-gpu", runtime_specific := true }) ]

/-- Python `self.image_types.get(name)`. -/
def lookupImageType (name : String) : Option ImageTypeConfig :=
  (image_types.find? (fun p => p.1 = name)).map (fun p => p.2)

/-- `get_dependency_image_reference` (engine.py lines 115-178).  The
unused `use_gpu_base` parameter is dropped.  When the image type has no
config or no dependency the default foundation image is returned on every
branch (lines 137-148). -/
def get_dependency_image_reference (image_type : String) (runtime : Option Runtime)
    (variation : Option Variation) (registry : Option String) : String :=
  match lookupImageType image_type with
  | none => "ubuntu:24.04"
  | some config =>
    match config.depends_on with
    | none => "ubuntu:24.04"
    | some depends_on =>
      let dep_config := lookupImageType depends_on
      let base_dep_type := pyReplace depends_on "-gpu" ""
      let dep_name :=
        match variation with
        | some v =>
            if base_dep_type = "python" then
              depends_on ++ "-py" ++ pyReplace v.python_version "." ""
            else depends_on
        | none => depends_on
      let image_ref :=
        (match registry with | none => "dbx-runtime" | some reg => reg) ++ ":" ++ dep_name
      match runtime, dep_config with
      | some rt, some dc =>
        if dc.runtime_specific then
          let runtime_clean :=
            pyLower (pyReplace (pyReplace (pyReplace rt.version " " "-") "(" "") ")" "")
          let r1 := image_ref ++ ":" ++ runtime_clean
          let r2 := match variation with
            | some v => r1 ++ "-" ++ v.suffix
            | none => r1
          if rt.is_ml then r2 ++ "-ml" else r2
        else image_ref
      | _, _ => image_ref

/-! ## LTS filtering (engine.py lines 786-832) -/

/-- Python dict insertion for the `lts_versions` grouping: appending to an
existing key's list, or adding a new key at the end (insertion order). -/
def insertGroup : List (String × List Runtime) → String → Runtime →
    List (String × List Runtime)
  | [], key, r => [(key, [r])]
  | (k, rs) :: t, key, r =>
      if k = key then (k, rs ++ [r]) :: t else (k, rs) :: insertGroup t key r

/-- The grouping loop (engine.py lines 797-804): LTS runtimes grouped by
version string in first-seen order; non-LTS runtimes are dropped. -/
def groupLtsRuntimes (runtimes : List Runtime) : List (String × List Runtime) :=
  runtimes.foldl (fun gs r => if r.is_lts then insertGroup gs r.version r else gs) []

/-- The sort key (engine.py line 809): the release date of the group's
first member, with 0 standing in for the empty-string fallback of an
empty group (unreachable: groups are created non-empty). -/
def groupKey (g : String × List Runtime) : Nat :=
  match g.2 with
  | [] => 0
  | r :: _ => r.release_date

/-- Stable insertion into a descending-by-key list: the inserted element
goes after every already-placed element with a key that is not smaller,
which reproduces the stability of Python `sorted(..., reverse=True)`. -/
def insertGroupDesc (g : String × List Runtime) :
    List (String × List Runtime) → List (String × List Runtime)
  | [] => [g]
  | h :: t => if groupKey h ≤ groupKey g then g :: h :: t
      else h :: insertGroupDesc g t

/-- Python `sorted(lts_versions.items(), key=release date, reverse=True)`:
a stable descending sort (insertion sort formulation). -/
def sortGroupsDesc : List (String × List Runtime) → List (String × List Runtime)
  | [] => []
  | g :: t => insertGroupDesc g (sortGroupsDesc t)

/-- `_filter_latest_lts_runtimes` (engine.py lines 786-832), with the
engine's `skip_ml_variants` policy flag made explicit. -/
def filter_latest_lts_runtimes (skip_ml_variants : Bool)
    (runtimes : List Runtime) (count : Nat) : List Runtime :=
  let latest_versions := (sortGroupsDesc (groupLtsRuntimes runtimes)).take count
  latest_versions.foldl
    (fun acc g =>
      acc ++ (if skip_ml_variants then g.2.filter (fun r => !r.is_ml) else g.2))
    []

/-- Catalog fixtures for the five-LTS-group scenario of C6: five distinct
LTS versions (13.3, 14.3, 15.4, 16.4, 17.3), each with a base and an ML
variant, where 15.4 and 16.4 share a release date, plus one non-LTS
runtime. -/
def mkCatRt (ver : String) (d : Nat) (ml lts : Bool) : Runtime :=
  { version := ver, release_date := d, end_of_support_date := d + 900
    spark_version := "x", url := "", is_ml := ml, is_lts := lts
    system_environment :=
      { operating_system := "Ubuntu 22.04.3 LTS", java_version := "8"
        scala_version := "2.12", python_version := "3.10.12"
        r_version := "4.2.2", delta_lake_version := "2.4.0" }
    included_libraries := [] }

def cat13 : Runtime := mkCatRt "13.3 LTS" 100 false true
def cat13ml : Runtime := mkCatRt "13.3 LTS" 100 true true
def cat14 : Runtime := mkCatRt "14.3 LTS" 200 false true
def cat14ml : Runtime := mkCatRt "14.3 LTS" 200 true true
def cat15 : Runtime := mkCatRt "15.4 LTS" 300 false true
def cat15ml : Runtime := mkCatRt "15.4 LTS" 300 true true
def cat16 : Runtime := mkCatRt "16.4 LTS" 300 false true
def cat16ml : Runtime := mkCatRt "16.4 LTS" 300 true true
def cat17 : Runtime := mkCatRt "17.3 LTS" 500 false true
def cat17ml : Runtime := mkCatRt "17.3 LTS" 500 true true
def catBeta : Runtime := mkCatRt "18.0" 550 false false

/-- The five-group catalog in its original (ascending) order. -/
def ltsCatalog : List Runtime :=
  [cat13, cat13ml, cat14, cat14ml, cat15, cat15ml, cat16, cat16ml,
   cat17, cat17ml, catBeta]

/-! ## Matrix generation (engine.py lines 932-1062, cli.py lines 240-263) -/

structure MatrixEntry where
  runtime : String
  image_type : String
  variant : String
  suffix : String
deriving DecidableEq

/-- The regex alternative `re.search(r"(-ubuntu\d+-py\d+)", dir)` at one
position (engine.py lines 1007-1010): literal `-ubuntu`, one or more
digits, literal `-py`, one or more digits; the digit runs are maximal
(greedy, and backtracking can never help because `-` is not a digit). -/
def matchUbuntuPy (l : List Char) : Option (List Char) :=
  if "-ubuntu".data.isPrefixOf l then
    let rest := l.drop 7
    let d1 := rest.takeWhile Char.isDigit
    if d1.isEmpty then none
    else
      let rest2 := rest.drop d1.length
      if "-py".data.isPrefixOf rest2 then
        let d2 := (rest2.drop 3).takeWhile Char.isDigit
        if d2.isEmpty then none
        else some ("-ubuntu".data ++ d1 ++ "-py".data ++ d2)
      else none
  else none

/-- `re.search`: first match position scanning left to right. -/
def searchUbuntuPy : List Char → Option (List Char)
  | [] => none
  | c :: cs =>
    match matchUbuntuPy (c :: cs) with
    | some m => some m
    | none => searchUbuntuPy cs

/-- The suffix extraction for one matrix entry (engine.py lines 987-1012):
split the first file path on `/`, take the third piece, strip the
sanitized runtime version prefix and any `-ml`, falling back to the regex
search, and to the empty string. -/
def matrixSuffixOf (runtime : String) (first_file : String) : String :=
  let parts := pySplitOnChar '/' first_file
  if parts.length ≥ 3 then
    let runtime_dir := (parts.drop 2).headD ""
    let runtime_sanitized := pyReplace runtime " " "-"
    if runtime_sanitized.data.isPrefixOf runtime_dir.data then
      pyReplace ⟨runtime_dir.data.drop runtime_sanitized.data.length⟩ "-ml" ""
    else
      match searchUbuntuPy runtime_dir.data with
      | some m => ⟨m⟩
      | none => ""
  else ""

/-- The inner loop body of `generate_build_matrix` for one runtime bucket
(engine.py lines 959-1022). -/
def entriesFor (runtime_key : String)
    (runtime_data : List (String × List String))
    (only_lts : Bool) (image_type : Option String) : List MatrixEntry :=
  if runtime_key = "non_runtime_specific" then []
  else
    let is_ml := pyEndsWith runtime_key "_ml"
    let runtime := pyReplace runtime_key "_ml" ""
    if only_lts = true ∧ pyContains runtime "LTS" = false then []
    else
      runtime_data.foldl
        (fun acc it =>
          if (match image_type with
              | some t => !(it.1 == t)
              | none => false) then acc
          else if ¬ (it.1 = "python" ∨ it.1 = "python-gpu") then acc
          else
            match it.2 with
            | [] => acc
            | first_file :: _ =>
                acc ++ [{ runtime := runtime, image_type := it.1,
                          variant := if is_ml then ".ml" else "",
                          suffix := matrixSuffixOf runtime first_file }])
        []

/-- Deduplication keeping first occurrences (engine.py lines 1024-1031):
the seen-set key is the full (runtime, image type, variant, suffix)
tuple, which is the whole entry. -/
def dedupEntries (seen : List MatrixEntry) : List MatrixEntry → List MatrixEntry
  | [] => []
  | e :: t =>
      if seen.contains e then dedupEntries seen t
      else e :: dedupEntries (e :: seen) t

/-- Python string comparison: lexicographic over code points. -/
def strLtL : List Char → List Char → Bool
  | [], [] => false
  | [], _ :: _ => true
  | _ :: _, [] => false
  | a :: as, b :: bs =>
      if a.toNat < b.toNat then true
      else if b.toNat < a.toNat then false
      else strLtL as bs

def strLtB (a b : String) : Bool := strLtL a.data b.data

/-- The composite ascending sort key of engine.py lines 1034-1044:
lexicographic over four negated major-version tests, then runtime, image
type and variant strings; ties report `true` so insertion keeps the
original order, matching Python's stable sort. -/
def entryLe (a b : MatrixEntry) : Bool :=
  let a1 := !(("17".data.isPrefixOf a.runtime.data : Bool))
  let b1 := !(("17".data.isPrefixOf b.runtime.data : Bool))
  let a2 := !(("16".data.isPrefixOf a.runtime.data : Bool))
  let b2 := !(("16".data.isPrefixOf b.runtime.data : Bool))
  let a3 := !(("15".data.isPrefixOf a.runtime.data : Bool))
  let b3 := !(("15".data.isPrefixOf b.runtime.data : Bool))
  let a4 := !(("14".data.isPrefixOf a.runtime.data : Bool))
  let b4 := !(("14".data.isPrefixOf b.runtime.data : Bool))
  if a1 ≠ b1 then a1 = false
  else if a2 ≠ b2 then a2 = false
  else if a3 ≠ b3 then a3 = false
  else if a4 ≠ b4 then a4 = false
  else if a.runtime ≠ b.runtime then strLtB a.runtime b.runtime
  else if a.image_type ≠ b.image_type then strLtB a.image_type b.image_type
  else if a.variant ≠ b.variant then strLtB a.variant b.variant
  else true

def insertEntry (e : MatrixEntry) : List MatrixEntry → List MatrixEntry
  | [] => [e]
  | x :: t => if entryLe e x then e :: x :: t else x :: insertEntry e t

/-- Python's stable `sort` under the composite key. -/
def sortEntries : List MatrixEntry → List MatrixEntry
  | [] => []
  | e :: t => insertEntry e (sortEntries t)

/-- First occurrences of runtime values, in order (engine.py lines
1049-1054). -/
def collectRuntimes (seen : List String) : List MatrixEntry → List String
  | [] => []
  | e :: t =>
      if seen.contains e.runtime then collectRuntimes seen t
      else e.runtime :: collectRuntimes (e.runtime :: seen) t

/-- `generate_build_matrix` (engine.py lines 932-1062).  `summary = none`
models a missing `build_summary.json`: the engine logs an error and
returns an empty include list (lines 948-951) — it does not raise. -/
def generate_build_matrix
    (summary : Option (List (String × List (String × List String))))
    (only_lts : Bool) (image_type : Option String)
    (latest_lts_count : Option Nat) : List MatrixEntry :=
  match summary with
  | none => []
  | some build_details =>
    let entries := build_details.foldl
      (fun acc kv => acc ++ entriesFor kv.1 kv.2 only_lts image_type) []
    let unique := sortEntries (dedupEntries [] entries)
    match latest_lts_count with
    | none => unique
    | some n =>
      let latest := (collectRuntimes [] unique).take n
      unique.filter (fun e => latest.contains e.runtime)

/-- `run_generate_matrix` (cli.py lines 240-263): the engine call is
wrapped in try/except, an exception yields exit code 1, a normal return
prints the matrix and yields exit code 0.  The missing-summary branch of
`generate_build_matrix` returns normally, so the model's engine call
always produces a value. -/
def generate_build_matrix_result
    (summary : Option (List (String × List (String × List String))))
    (only_lts : Bool) (image_type : Option String)
    (latest_lts_count : Option Nat) : Except String (List MatrixEntry) :=
  Except.ok (generate_build_matrix summary only_lts image_type latest_lts_count)

/-- The (exit code, printed matrix) pair of the generate-matrix command. -/
def run_generate_matrix
    (summary : Option (List (String × List (String × List String))))
    (only_lts : Bool) (image_type : Option String)
    (latest_lts_count : Option Nat) : Nat × List MatrixEntry :=
  match generate_build_matrix_result summary only_lts image_type latest_lts_count with
  | Except.ok m => (0, m)
  | Except.error _ => (1, [])

/-- The build summary of the C7 scenario: one non-runtime-specific bucket,
one base runtime bucket and one ML runtime bucket; the runtime buckets
also carry a non-language-flavored image type and an empty file list that
must both be ignored, and each kept image type lists two files that
collapse to a single matrix entry. -/
def c7Summary : List (String × List (String × List String)) :=
  [ ("non_runtime_specific",
      [ ("minimal", ["data/minimal/latest/Dockerfile"]),
        ("gpu", ["data/gpu/latest/Dockerfile"]) ]),
    ("17.3 LTS",
      [ ("python",
          ["data/python/17.3-LTS-ubuntu2404-py312/Dockerfile",
           "data/python/17.3-LTS-ubuntu2404-py312/runtime_metadata.json"]),
        ("standard", ["data/standard/latest/Dockerfile"]),
        ("python-gpu", []) ]),
    ("17.3 LTS_ml",
      [ ("python-gpu",
          ["data/python-gpu/17.3-LTS-ubuntu2404-py312-ml/Dockerfile",
           "data/python-gpu/17.3-LTS-ubuntu2404-py312-ml/runtime_metadata.json"]) ]) ]

/-- A summary whose two runtime keys produce the same
(runtime, image type, variant, suffix) tuple, exercising deduplication. -/
def c7DupSummary : List (String × List (String × List String)) :=
  [ ("17.3 LTS",
      [ ("python", ["data/python/17.3-LTS-ubuntu2404-py312/Dockerfile"]) ]),
    ("17.3_ml LTS",
      [ ("python", ["data/python/17.3-LTS-ubuntu2404-py312/Dockerfile"]) ]) ]

/-! ## requirements.txt generation (engine.py lines 438-479) -/

/-- `runtime.included_libraries.get("python", empty dict)`. -/
def pythonLibs (r : Runtime) : List (String × LibVersion) :=
  ((r.included_libraries.find? (fun p => p.1 = "python")).map (fun p => p.2)).getD []

/-- `lib_version[0] if isinstance(lib_version, tuple) else lib_version`
(engine.py line 475). -/
def libVersionStr : LibVersion → String
  | .plain v => v
  | .channel v _ => v

/-- One written requirement line, without its line ending. -/
def reqLine (p : String × LibVersion) : String := p.1 ++ "==" ++ libVersionStr p.2

/-- The comparison Python's `sorted` applies to the dict items: dict keys
are unique, so the tuple comparison is decided by the package name. -/
def libNameLe (a b : String × LibVersion) : Prop := a.1 ≤ b.1

instance : DecidableRel libNameLe :=
  fun a b => inferInstanceAs (Decidable (a.1 ≤ b.1))

instance : IsTotal (String × LibVersion) libNameLe :=
  ⟨fun a b => le_total a.1 b.1⟩

instance : IsTrans (String × LibVersion) libNameLe :=
  ⟨fun _ _ _ h1 h2 => le_trans h1 h2⟩

/-- `sorted(python_libs.items())` (engine.py line 473): a stable sort by
package name. -/
def sortLibsByName (libs : List (String × LibVersion)) : List (String × LibVersion) :=
  libs.insertionSort libNameLe

/-- The written file, line by line: three comment lines, a blank line
(the third `write` ends in two newlines), then one line per sorted
library. -/
def reqHeaderLines (r : Runtime) : List String :=
  [ "# Python requirements for Databricks runtime",
    "# Runtime version: " ++ r.version,
    "# Generated from included_libraries",
    "" ]

/-- `generate_requirements_txt` (engine.py lines 438-479), reduced to the
file content: the concatenation of the `f.write` payloads. -/
def generate_requirements_txt (r : Runtime) : String :=
  joinWrites
    ((reqHeaderLines r ++ (sortLibsByName (pythonLibs r)).map reqLine).map
      (fun l => l ++ "\n"))

/-- The lines of a file, split at every newline; a trailing newline yields
a final empty piece. -/
def fileLines (s : String) : List String :=
  (splitOnCharL '\n' s.data).map (fun l => ⟨l⟩)

/-- A requirement payload line: non-empty and not a comment. -/
def keepLine (l : String) : Bool :=
  match l.data with
  | [] => false
  | c :: _ => !(c == '#')

/-- A runtime with unsorted python libraries for the C8 witness. -/
def rtLibs : Runtime :=
  { rt173 with
    included_libraries :=
      [ ("python", [("pandas", .plain "2.2.3"),
                    ("numpy", .channel "1.26.4" "conda"),
                    ("black", .plain "24.4.2")]),
        ("r", [("ggplot2", .plain "3.5.1")]) ] }

/-! ## Build summary totals (engine.py lines 834-930) -/

/-- The `runtime_key` of the orchestration loop (engine.py line 878). -/
def runtimeKey (r : Runtime) : String :=
  r.version ++ (if r.is_ml then "_ml" else "")

/-- Python dict assignment `d[k] = v`: overwrite in place or append. -/
def dictInsert {α : Type} : List (String × α) → String → α → List (String × α)
  | [], k, v => [(k, v)]
  | p :: t, k, v => if p.1 = k then (k, v) :: t else p :: dictInsert t k v

/-- `build_all_images_for_all_runtimes` (engine.py lines 870-884), reduced
to the assembly of `all_generated_files`: the `non_runtime_specific`
bucket first, then one key per processed runtime. -/
def build_details_assembled {α : Type} (nonRuntimeFiles : α)
    (runtimes : List Runtime) (filesFor : Runtime → α) : List (String × α) :=
  runtimes.foldl (fun d r => dictInsert d (runtimeKey r) (filesFor r))
    [("non_runtime_specific", nonRuntimeFiles)]

/-- The `total_runtimes` field of `save_build_summary` (engine.py line
912): `len(all_generated_files)`. -/
def total_runtimes_field {α : Type} (d : List (String × α)) : Nat := d.length

/-- The ML variant of `rt173`, for the C10 witness. -/
def rt173ml : Runtime := { rt173 with is_ml := true }

theorem joinWrites_append (a b : List String) :
    joinWrites (a ++ b) = joinWrites a ++ joinWrites b := by
  induction a with
  | nil => simp [joinWrites]
  | cons s t ih => simp [joinWrites, ih, String.append_assoc]

theorem applyInstr_indent (b : DockerfileBuilder) (i : DockerInstruction) :
    (applyInstr b i).builder.indent_level = b.builder.indent_level := by
  simp only [applyInstr, SBappendLine, SBappend]
  split <;> rfl

theorem foldl_applyInstr_indent (l : List DockerInstruction) (b : DockerfileBuilder) :
    (l.foldl applyInstr b).builder.indent_level = b.builder.indent_level := by
  induction l generalizing b with
  | nil => rfl
  | cons i t ih => rw [List.foldl_cons, ih, applyInstr_indent]

theorem mkDockerfileBuilder_indent (base : DockerInstruction)
    (instrs : List DockerInstruction) (registry : Option String) :
    (mkDockerfileBuilder base instrs registry).builder.indent_level = 0 := by
  show (instrs.foldl applyInstr _).builder.indent_level = 0
  rw [foldl_applyInstr_indent, applyInstr_indent]

/-- The line `applyInstr` appends: the DockerfileBuilder never calls
`indent`, so its StringBuilder stays at indent level 0 and the appended
element is exactly the rendered line plus the LF line ending. -/
theorem applyInstr_content (b : DockerfileBuilder) (i : DockerInstruction)
    (h : b.builder.indent_level = 0) :
    (applyInstr b i).builder.content = b.builder.content ++ [renderLine i ++ "\n"] := by
  simp [applyInstr, SBappendLine, SBappend, h]

theorem applyInstr_content_exists (b : DockerfileBuilder) (i : DockerInstruction) :
    ∃ line, (applyInstr b i).builder.content = b.builder.content ++ [line] := by
  simp only [applyInstr, SBappendLine, SBappend]
  split <;> exact ⟨_, rfl⟩

theorem foldl_applyInstr_content (l : List DockerInstruction) (b : DockerfileBuilder)
    (h : b.builder.indent_level = 0) :
    (l.foldl applyInstr b).builder.content
      = b.builder.content ++ l.map (fun i => renderLine i ++ "\n") := by
  induction l generalizing b with
  | nil => simp
  | cons i t ih =>
      rw [List.foldl_cons, ih _ (by rw [applyInstr_indent]; exact h),
        applyInstr_content _ _ h]
      simp

theorem foldl_applyInstr_content_exists (l : List DockerInstruction)
    (b : DockerfileBuilder) :
    ∃ t, (l.foldl applyInstr b).builder.content = b.builder.content ++ t := by
  induction l generalizing b with
  | nil => exact ⟨[], by simp⟩
  | cons i rest ih =>
      obtain ⟨line, hline⟩ := applyInstr_content_exists b i
      obtain ⟨t, ht⟩ := ih (applyInstr b i)
      exact ⟨line :: t, by rw [List.foldl_cons, ht, hline]; simp⟩

theorem mkDockerfileBuilder_content (base : DockerInstruction)
    (instrs : List DockerInstruction) (registry : Option String) :
    (mkDockerfileBuilder base instrs registry).builder.content
      = (base :: instrs).map (fun i => renderLine i ++ "\n") := by
  show (instrs.foldl applyInstr _).builder.content = _
  rw [foldl_applyInstr_content _ _ (by rfl), applyInstr_content _ _ rfl]
  simp

theorem joinWrites_map_line (s : String) (l : List String) :
    joinWrites ((s :: l).map (fun x => x ++ "\n")) = specJoin (s :: l) ++ "\n" := by
  induction l generalizing s with
  | nil => simp [joinWrites, specJoin]
  | cons x t ih =>
      have h1 : joinWrites ((s :: x :: t).map (fun y => y ++ "\n"))
          = (s ++ "\n") ++ joinWrites ((x :: t).map (fun y => y ++ "\n")) := rfl
      have h2 : specJoin (s :: x :: t) = s ++ "\n" ++ specJoin (x :: t) := rfl
      rw [h1, ih x, h2]
      simp [String.append_assoc]

/-- C1 counterexample: for the builder with base `FROM ubuntu:24.04` and no
steps, the rendered text carries a trailing newline, so it differs from the
bare newline-join of the rendered lines. -/
theorem c1_render_not_newline_join :
    renderBuilder (mkDockerfileBuilder (.fromInstr "ubuntu:24.04") [] none)
      ≠ specJoin ((([] : List DockerInstruction).cons (.fromInstr "ubuntu:24.04")).map renderLine) := by
  decide

/-- C1 (amended): for every builder constructed from a base-image
instruction and an ordered list of instruction steps, the rendered
artifact text equals the newline-join of the rendered single lines of the
base step followed by each instruction step in order, followed by one
trailing newline: render() = join(lines, newline) ++ newline. -/
theorem c1_render_is_newline_join_plus_eol (base : DockerInstruction)
    (instrs : List DockerInstruction) (registry : Option String) :
    renderBuilder (mkDockerfileBuilder base instrs registry)
      = specJoin ((base :: instrs).map renderLine) ++ "\n" := by
  rw [renderBuilder, SBrender, mkDockerfileBuilder_content]
  rw [show (base :: instrs).map (fun i => renderLine i ++ "\n")
        = ((base :: instrs).map renderLine).map (fun x => x ++ "\n") by simp]
  rw [show (base :: instrs).map renderLine
        = renderLine base :: instrs.map renderLine by simp]
  exact joinWrites_map_line _ _

/-- C9: the base-image step's line is always the first rendered line, and
appending a step (singly or variadically) is append-only: previously
accumulated lines are preserved at their positions and the previously
rendered text is a prefix of the new rendered text. -/
theorem c9_base_first_append_only (base : DockerInstruction)
    (instrs : List DockerInstruction) (registry : Option String) :
    (mkDockerfileBuilder base instrs registry).builder.content.head?
        = some (renderLine base ++ "\n")
    ∧ (∀ i, (applyInstr (mkDockerfileBuilder base instrs registry) i).builder.content
        = (mkDockerfileBuilder base instrs registry).builder.content
            ++ [renderLine i ++ "\n"])
    ∧ (∀ (b : DockerfileBuilder) (i : DockerInstruction),
        ∃ line, (applyInstr b i).builder.content = b.builder.content ++ [line]
        ∧ renderBuilder (applyInstr b i) = renderBuilder b ++ line)
    ∧ (∀ (b : DockerfileBuilder) (feats : List DockerInstruction),
        ∃ t, (feats.foldl applyInstr b).builder.content = b.builder.content ++ t) := by
  refine ⟨?_, ?_, ?_, ?_⟩
  · rw [mkDockerfileBuilder_content]; rfl
  · intro i
    exact applyInstr_content _ _ (mkDockerfileBuilder_indent base instrs registry)
  · intro b i
    obtain ⟨line, hline⟩ := applyInstr_content_exists b i
    refine ⟨line, hline, ?_⟩
    rw [renderBuilder, renderBuilder, SBrender, SBrender, hline, joinWrites_append]
    simp [joinWrites]
  · exact fun b feats => foldl_applyInstr_content_exists feats b

/-- C4: for runtime version `17.3 LTS` (space sanitized to a dash), suffix
`ubuntu2404-py312`, separator `-`, non-ML, image type `python`, the saved
Dockerfile path is `data/python/17.3-LTS-ubuntu2404-py312/Dockerfile`; the
path depends only on the image type, the sanitized version, the separator,
the suffix and the ML flag, so it is a deterministic function of them. -/
theorem c4_save_dockerfile_path :
    (∀ (r : Runtime) (v : Variation),
      sanitize_runtime_version r.version = "17.3-LTS" → r.is_ml = false →
      v.suffix = "ubuntu2404-py312" → v.separator = "-" →
      save_dockerfile_path "data" r "python" (some v)
        = "data/python/17.3-LTS-ubuntu2404-py312/Dockerfile")
    ∧ (∀ (d t : String) (r₁ r₂ : Runtime) (v₁ v₂ : Variation),
      sanitize_runtime_version r₁.version = sanitize_runtime_version r₂.version →
      r₁.is_ml = r₂.is_ml → v₁.suffix = v₂.suffix → v₁.separator = v₂.separator →
      save_dockerfile_path d r₁ t (some v₁) = save_dockerfile_path d r₂ t (some v₂)) := by
  constructor
  · intro r v h1 h2 h3 h4
    simp only [save_dockerfile_path, h1, h2, h3, h4]
    decide
  · intro d t r₁ r₂ v₁ v₂ h1 h2 h3 h4
    simp only [save_dockerfile_path, h1, h2, h3, h4]

theorem c4_save_dockerfile_path_witness :
    save_dockerfile_path "data" rt173 "python" (some var173)
      = "data/python/17.3-LTS-ubuntu2404-py312/Dockerfile" :=
  c4_save_dockerfile_path.1 rt173 var173 (by decide) (by decide) (by decide) (by decide)

theorem extract_os_default (r : Runtime)
    (h : ¬ ubuntuVersionParseable r.system_environment.operating_system) :
    extract_os_version_from_runtime r = "24.04" := by
  unfold extract_os_version_from_runtime
  unfold ubuntuVersionParseable at h
  push_neg at h
  by_cases h1 : r.system_environment.operating_system = ""
  · simp [h1]
  · simp only [h1, if_false]
    by_cases h2 : pyContains (pyLower r.system_environment.operating_system) "ubuntu" = true
    · have h3 := h h1 h2
      simp only [h2, if_true]
      cases hf : findUbuntuVersionPart (pySplitWs (pyLower r.system_environment.operating_system)) with
      | none => rfl
      | some v => rw [hf] at h3; simp at h3
    · simp [h2]

/-- C5: whenever `get_runtime_variations` returns (the stored python
version is either empty or has a leading token), it yields exactly one
variation, whose suffix is `ubuntu` + the OS version without dots + `-py`
+ the python version without dots; and when the operating-system string
has no parseable Ubuntu dotted version the OS version defaults to
`24.04` — the variation is still produced rather than the run aborting. -/
theorem c5_single_variation_with_default (r : Runtime)
    (hpy : r.system_environment.python_version = ""
      ∨ ∃ tok, (pySplitWs r.system_environment.python_version).head? = some tok) :
    ∃ v, get_runtime_variations r = some [v]
      ∧ v.suffix = "ubuntu" ++ pyReplace v.os_version "." ""
          ++ "-py" ++ pyReplace v.python_version "." ""
      ∧ (¬ ubuntuVersionParseable r.system_environment.operating_system →
          v.os_version = "24.04") := by
  have hsome : ∃ pvs, get_python_versions_from_runtime r = some pvs := by
    unfold get_python_versions_from_runtime
    rcases hpy with h | ⟨tok, htok⟩
    · simp [h]
    · have h0 : r.system_environment.python_version ≠ "" := by
        intro he
        rw [he] at htok
        simp [pySplitWs, splitWsGo] at htok
      simp only [h0, if_false, htok]
      exact ⟨_, rfl⟩
  obtain ⟨pvs, hpvs⟩ := hsome
  refine ⟨{ os_version := extract_os_version_from_runtime r,
            python_version := pvs.python,
            suffix := "ubuntu" ++ pyReplace (extract_os_version_from_runtime r) "." ""
                ++ "-py" ++ pyReplace pvs.python "." "",
            separator := "-" }, ?_, rfl, fun hn => extract_os_default r hn⟩
  unfold get_runtime_variations
  rw [hpvs]

theorem c5_single_variation_with_default_witness :
    ∃ v, get_runtime_variations rtDebian = some [v]
      ∧ v.suffix = "ubuntu" ++ pyReplace v.os_version "." ""
          ++ "-py" ++ pyReplace v.python_version "." ""
      ∧ (¬ ubuntuVersionParseable rtDebian.system_environment.operating_system →
          v.os_version = "24.04") :=
  c5_single_variation_with_default rtDebian (Or.inr ⟨"3.12.3", by decide⟩)

/-- C2: for every runtime-specific image type of the registry with a
declared parent, the resolved base-image reference contains the parent's
name token; and whenever that parent is itself runtime-specific and a
runtime is supplied, the reference additionally ends with the sanitized
runtime version, then the variation suffix when a variation is supplied,
then `-ml` when the runtime is an ML variant, in that fixed order.  (In
the registry as built, `python` depends on `standard` and `python-gpu` on
`standard-gpu`, neither of which is runtime-specific, so the second clause
never fires on this code base.) -/
theorem c2_dependency_reference_structure :
    ∀ p ∈ image_types, p.2.runtime_specific = true →
    ∀ parent, p.2.depends_on = some parent →
    ∀ (rt : Option Runtime) (v : Option Variation) (reg : Option String),
      (∃ pre post,
        get_dependency_image_reference p.1 rt v reg = pre ++ parent ++ post)
      ∧ (∀ dc, lookupImageType parent = some dc → dc.runtime_specific = true →
          ∀ r, rt = some r →
          ∃ pre,
            get_dependency_image_reference p.1 rt v reg
              = pre ++ sanitize_runtime_version r.version
                  ++ (match v with | some vv => "-" ++ vv.suffix | none => "")
                  ++ (if r.is_ml then "-ml" else "")) := by
  intro p hp hrs parent hparent rt v reg
  fin_cases hp <;> simp_all <;> subst hparent
  · -- python, parent standard
    constructor
    · refine ⟨(match reg with | none => "dbx-runtime" | some reg => reg) ++ ":", "", ?_⟩
      have hdep : get_dependency_image_reference "python" rt v reg
          = (match reg with | none => "dbx-runtime" | some reg => reg) ++ ":" ++ "standard" := by
        unfold get_dependency_image_reference
        have h1 : lookupImageType "python"
            = some { use_gpu_base := false, depends_on := some "standard",
                     runtime_specific := true } := by decide
        have h2 : lookupImageType "standard"
            = some { use_gpu_base := false, depends_on := some "minimal",
                     runtime_specific := false } := by decide
        rw [h1]
        simp only [h2]
        have h3 : pyReplace "standard" "-gpu" "" = "standard" := by decide
        have h4 : ¬ (pyReplace "standard" "-gpu" "" = "python") := by decide
        cases v <;> cases rt <;> simp [h4]
      rw [hdep, String.append_empty]
    · intro dc hdc
      have : dc = { use_gpu_base := false, depends_on := some "minimal",
                    runtime_specific := false } := by
        have h2 : lookupImageType "standard"
            = some { use_gpu_base := false, depends_on := some "minimal",
                     runtime_specific := false } := by decide
        rw [h2] at hdc
        exact (Option.some_injective _ hdc).symm
      rw [this]
      intro h
      simp at h
  · -- python-gpu, parent standard-gpu
    constructor
    · refine ⟨(match reg with | none => "dbx-runtime" | some reg => reg) ++ ":", "", ?_⟩
      have hdep : get_dependency_image_reference "python-gpu" rt v reg
          = (match reg with | none => "dbx-runtime" | some reg => reg) ++ ":" ++ "standard-gpu" := by
        unfold get_dependency_image_reference
        have h1 : lookupImageType "python-gpu"
            = some { use_gpu_base := true, depends_on := some "standard-gpu",
                     runtime_specific := true } := by decide
        have h2 : lookupImageType "standard-gpu"
            = some { use_gpu_base := true, depends_on := some "minimal-gpu",
                     runtime_specific := false } := by decide
        rw [h1]
        simp only [h2]
        have h4 : ¬ (pyReplace "standard-gpu" "-gpu" "" = "python") := by decide
        cases v <;> cases rt <;> simp [h4]
      rw [hdep, String.append_empty]
    · intro dc hdc
      have : dc = { use_gpu_base := true, depends_on := some "minimal-gpu",
                    runtime_specific := false } := by
        have h2 : lookupImageType "standard-gpu"
            = some { use_gpu_base := true, depends_on := some "minimal-gpu",
                     runtime_specific := false } := by decide
        rw [h2] at hdc
        exact (Option.some_injective _ hdc).symm
      rw [this]
      intro h
      simp at h

theorem c2_dependency_reference_structure_witness :
    ∃ pre post,
      get_dependency_image_reference "python" (some rt173) (some var173) none
        = pre ++ "standard" ++ post :=
  (c2_dependency_reference_structure
      ("python", { use_gpu_base := false, depends_on := some "standard",
                   runtime_specific := true })
      (by decide) rfl "standard" rfl (some rt173) (some var173) none).1

/-- C6: filtering the five-LTS-group catalog to the latest 3 keeps exactly
the groups 17.3 (date 500), 15.4 and 16.4 (both date 300, original
catalog order preserved among the equal dates), orders them by descending
release date, keeps ML variants exactly when `skip_ml_variants` is off,
and drops the non-LTS runtime. -/
theorem c6_filter_latest_lts :
    filter_latest_lts_runtimes true ltsCatalog 3 = [cat17, cat15, cat16]
    ∧ filter_latest_lts_runtimes false ltsCatalog 3
        = [cat17, cat17ml, cat15, cat15ml, cat16, cat16ml] := by
  constructor <;> decide

/-- C3 counterexample: running generate-matrix with the build summary file
missing exits with code 0, not the fatal exit code 1 the claim states. -/
theorem c3_missing_summary_exit_not_one :
    ¬ ((run_generate_matrix none false none none).1 = 1) := by
  decide

/-- C3 (amended): when the build summary file is missing, the
generate-matrix run reports the error but is not fatal: it prints an
empty matrix and the process exit code is 0. -/
theorem c3_missing_summary_empty_matrix_exit_zero
    (only_lts : Bool) (image_type : Option String) (latest_lts_count : Option Nat) :
    run_generate_matrix none only_lts image_type latest_lts_count = (0, []) :=
  rfl

/-- C7: on the summary with one non-runtime-specific bucket and two
runtime-specific buckets, matrix generation yields exactly 2 entries — the
non-runtime-specific bucket is dropped, only `python` and `python-gpu`
survive, and `variant` is `.ml` exactly for the key ending in `_ml`; and
entries agreeing on all four fields are deduplicated. -/
theorem c7_matrix_two_entries :
    generate_build_matrix (some c7Summary) false none none
      = [ { runtime := "17.3 LTS", image_type := "python",
            variant := "", suffix := "-ubuntu2404-py312" },
          { runtime := "17.3 LTS", image_type := "python-gpu",
            variant := ".ml", suffix := "-ubuntu2404-py312" } ]
    ∧ generate_build_matrix (some c7DupSummary) false none none
      = [ { runtime := "17.3 LTS", image_type := "python",
            variant := "", suffix := "-ubuntu2404-py312" } ] := by
  constructor <;> decide

theorem splitOnCharL_cons (sep x : Char) (xs : List Char) :
    splitOnCharL sep (x :: xs)
      = match splitOnCharL sep xs with
        | h :: t => if x = sep then [] :: h :: t else (x :: h) :: t
        | [] => [[x]] := rfl

theorem splitOnCharL_ne_nil (c : Char) (l : List Char) : splitOnCharL c l ≠ [] := by
  cases l with
  | nil => simp [splitOnCharL]
  | cons x xs =>
      rw [splitOnCharL_cons]
      cases h : splitOnCharL c xs with
      | nil => simp
      | cons hh tt => by_cases hxc : x = c <;> simp [hxc]

theorem splitOnCharL_sep (c : Char) (a b : List Char) (h : c ∉ a) :
    splitOnCharL c (a ++ c :: b) = a :: splitOnCharL c b := by
  induction a with
  | nil =>
      rw [List.nil_append, splitOnCharL_cons]
      cases hs : splitOnCharL c b with
      | nil => exact absurd hs (splitOnCharL_ne_nil c b)
      | cons hh tt => simp
  | cons x xs ih =>
      have hx : ¬ x = c := fun he => h (by simp [he])
      have hxs : c ∉ xs := fun hm => h (by simp [hm])
      rw [List.cons_append, splitOnCharL_cons, ih hxs]
      simp [hx]

theorem joinWrites_data (l : List String) :
    (joinWrites l).data = (l.map String.data).join := by
  induction l with
  | nil => rfl
  | cons s t ih => simp [joinWrites, ih]

theorem splitOnCharL_join_lines (c : Char) (ls : List (List Char))
    (h : ∀ l ∈ ls, c ∉ l) :
    splitOnCharL c ((ls.map (fun l => l ++ [c])).join) = ls ++ [[]] := by
  induction ls with
  | nil => rfl
  | cons l t ih =>
      have h1 : c ∉ l := h l (by simp)
      have h2 : ∀ x ∈ t, c ∉ x := fun x hx => h x (by simp [hx])
      simp only [List.map_cons, List.join_cons, List.append_assoc,
        List.singleton_append]
      rw [splitOnCharL_sep c l _ h1, ih h2]
      rfl

theorem fileLines_of_lines (ls : List String) (h : ∀ l ∈ ls, '\n' ∉ l.data) :
    fileLines (joinWrites (ls.map (fun l => l ++ "\n"))) = ls ++ [""] := by
  unfold fileLines
  rw [joinWrites_data]
  have hmap : (ls.map (fun l => l ++ "\n")).map String.data
      = (ls.map String.data).map (fun l => l ++ ['\n']) := by
    simp
  rw [hmap, splitOnCharL_join_lines '\n' (ls.map String.data)
    (by intro l hl; obtain ⟨s, hs, rfl⟩ := List.mem_map.mp hl; exact h s hs)]
  rw [List.map_append, List.map_map]
  have hid : ∀ l : List String,
      l.map ((fun d => (⟨d⟩ : String)) ∘ String.data) = l := by
    intro l
    induction l with
    | nil => rfl
    | cons s t ih =>
        rw [List.map_cons, ih]
        rfl
  rw [hid]
  rfl

theorem keepLine_reqLine (p : String × LibVersion)
    (h : p.1.data.head? ≠ some '#') : keepLine (reqLine p) = true := by
  unfold keepLine reqLine
  cases hd : p.1.data with
  | nil => simp [hd]
  | cons c cs =>
      rw [hd] at h
      simp only [List.head?] at h
      have : ¬ c = '#' := fun he => h (by rw [he])
      simp [hd, this]

/-- C8: the payload lines of the generated requirements.txt (its
non-empty, non-comment lines) are exactly one `name==version` line per
entry of the runtime's `included_libraries["python"]`, sorted by package
name — a permutation of the dict items sorted under `libNameLe` — with
the version taken from the first element when the stored value is a
(version, channel) tuple (`libVersionStr`). -/
theorem c8_requirements_sorted_lines (r : Runtime)
    (hv : '\n' ∉ r.version.data)
    (hl : ∀ p ∈ pythonLibs r,
      '\n' ∉ p.1.data ∧ '\n' ∉ (libVersionStr p.2).data
        ∧ p.1.data.head? ≠ some '#') :
    (fileLines (generate_requirements_txt r)).filter keepLine
        = (sortLibsByName (pythonLibs r)).map reqLine
    ∧ List.Sorted libNameLe (sortLibsByName (pythonLibs r))
    ∧ (sortLibsByName (pythonLibs r)).Perm (pythonLibs r) := by
  have hperm : (sortLibsByName (pythonLibs r)).Perm (pythonLibs r) :=
    List.perm_insertionSort libNameLe (pythonLibs r)
  have hmemsort : ∀ p ∈ sortLibsByName (pythonLibs r), p ∈ pythonLibs r :=
    fun p hp => hperm.mem_iff.mp hp
  refine ⟨?_, List.sorted_insertionSort libNameLe (pythonLibs r), hperm⟩
  have hnolf : ∀ l ∈ reqHeaderLines r ++ (sortLibsByName (pythonLibs r)).map reqLine,
      '\n' ∉ l.data := by
    intro l hl2
    rcases List.mem_append.mp hl2 with hh | hr
    · simp only [reqHeaderLines, List.mem_cons, List.not_mem_nil, or_false] at hh
      rcases hh with h | h | h | h
      · subst h; decide
      · subst h
        simp only [String.data_append]
        intro hm
        rcases List.mem_append.mp hm with hm1 | hm2
        · revert hm1; decide
        · exact hv hm2
      · subst h; decide
      · subst h; decide
    · obtain ⟨p, hp, rfl⟩ := List.mem_map.mp hr
      obtain ⟨h1, h2, _⟩ := hl p (hmemsort p hp)
      unfold reqLine
      simp only [String.data_append]
      intro hm
      rcases List.mem_append.mp hm with hm1 | hm2
      · rcases List.mem_append.mp hm1 with hma | hmb
        · exact h1 hma
        · revert hmb; decide
      · exact h2 hm2
  rw [show generate_requirements_txt r
      = joinWrites ((reqHeaderLines r ++ (sortLibsByName (pythonLibs r)).map reqLine).map
          (fun l => l ++ "\n")) from rfl]
  rw [fileLines_of_lines _ hnolf]
  rw [List.filter_append, List.filter_append]
  have hhdr : (reqHeaderLines r).filter keepLine = [] := by
    simp only [reqHeaderLines, List.filter]
    have k1 : keepLine "# Python requirements for Databricks runtime" = false := by decide
    have k2 : keepLine ("# Runtime version: " ++ r.version) = false := by
      unfold keepLine
      have hd : ("# Runtime version: " ++ r.version).data
          = '#' :: (" Runtime version: ".data ++ r.version.data) := by
        rw [String.data_append,
          show ("# Runtime version: " : String).data
            = '#' :: (" Runtime version: " : String).data from rfl,
          List.cons_append]
      rw [hd]
      simp
    have k3 : keepLine "# Generated from included_libraries" = false := by decide
    have k4 : keepLine "" = false := by decide
    simp [k1, k2, k3, k4]
  have hkeep : ((sortLibsByName (pythonLibs r)).map reqLine).filter keepLine
      = (sortLibsByName (pythonLibs r)).map reqLine := by
    apply List.filter_eq_self.mpr
    intro l hl2
    obtain ⟨p, hp, rfl⟩ := List.mem_map.mp hl2
    exact keepLine_reqLine p (hl p (hmemsort p hp)).2.2
  have hlast : ([""] : List String).filter keepLine = [] := by decide
  rw [hhdr, hkeep, hlast]
  simp

theorem c8_requirements_sorted_lines_witness :
    (fileLines (generate_requirements_txt rtLibs)).filter keepLine
        = (sortLibsByName (pythonLibs rtLibs)).map reqLine
    ∧ List.Sorted libNameLe (sortLibsByName (pythonLibs rtLibs))
    ∧ (sortLibsByName (pythonLibs rtLibs)).Perm (pythonLibs rtLibs) :=
  c8_requirements_sorted_lines rtLibs (by decide) (by decide)

theorem dictInsert_fresh {α : Type} (d : List (String × α)) (k : String) (v : α)
    (h : k ∉ d.map Prod.fst) : dictInsert d k v = d ++ [(k, v)] := by
  induction d with
  | nil => rfl
  | cons p t ih =>
      have h1 : ¬ p.1 = k := fun he => h (by simp [he])
      have h2 : k ∉ t.map Prod.fst := fun hm => h (by simp [hm])
      simp [dictInsert, h1, ih h2]

theorem foldl_dictInsert_length {α : Type} (filesFor : Runtime → α) :
    ∀ (rs : List Runtime) (d : List (String × α)),
    (rs.map runtimeKey).Nodup →
    (∀ r ∈ rs, runtimeKey r ∉ d.map Prod.fst) →
    (rs.foldl (fun d r => dictInsert d (runtimeKey r) (filesFor r)) d).length
      = d.length + rs.length := by
  intro rs
  induction rs with
  | nil => intro d _ _; simp
  | cons r t ih =>
      intro d hnd hfresh
      rw [List.foldl_cons,
        dictInsert_fresh d (runtimeKey r) (filesFor r) (hfresh r (by simp))]
      have hnd' : (t.map runtimeKey).Nodup := by
        simp only [List.map_cons, List.nodup_cons] at hnd
        exact hnd.2
      have hne : ∀ r' ∈ t, ¬ runtimeKey r' = runtimeKey r := by
        intro r' hr' he
        simp only [List.map_cons, List.nodup_cons] at hnd
        exact hnd.1 (he ▸ List.mem_map_of_mem runtimeKey hr')
      have hfresh' : ∀ r' ∈ t,
          runtimeKey r' ∉ (d ++ [(runtimeKey r, filesFor r)]).map Prod.fst := by
        intro r' hr' hm
        simp only [List.map_append, List.mem_append] at hm
        rcases hm with hm | hm
        · exact hfresh r' (by simp [hr']) hm
        · simp at hm
          exact hne r' hr' hm
      rw [ih _ hnd' hfresh']
      simp only [List.length_append, List.length_cons, List.length_nil]
      omega

/-- C10: on every full build run, the `total_runtimes` field written to
`build_summary.json` equals the number of runtime keys plus one, because
the `non_runtime_specific` bucket lives in the same mapping and is
counted; it therefore always exceeds the number of runtimes built. -/
theorem c10_total_runtimes_off_by_one {α : Type} (nonRuntimeFiles : α)
    (runtimes : List Runtime) (filesFor : Runtime → α)
    (hnd : (runtimes.map runtimeKey).Nodup)
    (hns : ∀ r ∈ runtimes, runtimeKey r ≠ "non_runtime_specific") :
    total_runtimes_field (build_details_assembled nonRuntimeFiles runtimes filesFor)
        = runtimes.length + 1
    ∧ runtimes.length
        < total_runtimes_field (build_details_assembled nonRuntimeFiles runtimes filesFor) := by
  have h : total_runtimes_field (build_details_assembled nonRuntimeFiles runtimes filesFor)
      = runtimes.length + 1 := by
    unfold total_runtimes_field build_details_assembled
    rw [foldl_dictInsert_length filesFor runtimes _ hnd
      (by intro r hr; simpa using hns r hr)]
    simp only [List.length_singleton]
    omega
  exact ⟨h, by rw [h]; omega⟩

theorem c10_total_runtimes_off_by_one_witness :
    total_runtimes_field
        (build_details_assembled (["latest/Dockerfile"] : List String)
          [rt173, rt173ml] (fun _ => []))
        = 2 + 1
    ∧ 2 < total_runtimes_field
        (build_details_assembled (["latest/Dockerfile"] : List String)
          [rt173, rt173ml] (fun _ => [])) := by
  have h := c10_total_runtimes_off_by_one (["latest/Dockerfile"] : List String)
    [rt173, rt173ml] (fun _ => []) (by decide)
    (by intro r hr; fin_cases hr <;> decide)
  simpa using h

end DbxContainer

